import Mathlib

/-!
Verification development for the UFlame repository
(FlameBridge/scripts): a shallow embedding of the SimpleFLAME model
loader, blendshape evaluator and OBJ exporter of simple_flame.py, and of
the early argument/file checks of the CLI entry points. Numeric values
are modelled as rationals; real numbers appear only where the code takes
a square root (normal normalization).
-/

set_option maxHeartbeats 1000000

namespace UFlame

/-- A 3-component numeric row (a vertex position, displacement or normal
accumulator entry). -/
@[ext]
structure Vec3 where
  x : ℚ
  y : ℚ
  z : ℚ
deriving DecidableEq

/-- A 2-component numeric row (one UV coordinate pair). -/
@[ext]
structure Vec2 where
  u : ℚ
  v : ℚ
deriving DecidableEq

/-- One triangle of self.faces: three vertex indices, 0-based. -/
structure Tri where
  a : ℕ
  b : ℕ
  c : ℕ
deriving DecidableEq

/-- Three per-corner vt indices of one face, 0-based after the OBJ 1-based
conversion (kept as integers because the code performs no range check). -/
structure TriZ where
  a : ℤ
  b : ℤ
  c : ℤ
deriving DecidableEq

def zeroVec3 : Vec3 := ⟨0, 0, 0⟩

def addVec3 (p q : Vec3) : Vec3 := ⟨p.x + q.x, p.y + q.y, p.z + q.z⟩

def subVec3 (p q : Vec3) : Vec3 := ⟨p.x - q.x, p.y - q.y, p.z - q.z⟩

/-- Componentwise formula of numpy.cross for 3-vectors (simple_flame.py
line 349). -/
def crossVec3 (p q : Vec3) : Vec3 :=
  ⟨p.y * q.z - p.z * q.y, p.z * q.x - p.x * q.z, p.x * q.y - p.y * q.x⟩

def sumVec3 (l : List Vec3) : Vec3 := l.foldr addVec3 zeroVec3

def zeroVec2 : Vec2 := ⟨0, 0⟩

def addVec2 (p q : Vec2) : Vec2 := ⟨p.u + q.u, p.v + q.v⟩

def sumVec2 (l : List Vec2) : Vec2 := l.foldr addVec2 zeroVec2

/-- A dense numeric array with an explicit shape, data flattened in
row-major order.  Models the numpy arrays held by the model container. -/
structure NDArray where
  shape : List ℕ
  data : List ℚ
deriving DecidableEq

/-- The in-memory model container after unpickling (simple_flame.py lines
70-143): the required keys already resolved (v_template; shapedirs; the
first present of f / faces / triangles) and the optional raw UV array
(the first present of uv / vt / texcoords, lines 94-106). -/
structure Container where
  v_template : List Vec3
  shapedirs : NDArray
  faces : List Tri
  rawUV : Option NDArray
deriving DecidableEq

/-- State of a successfully constructed SimpleFLAME object (the fields
assigned by init in simple_flame.py). -/
structure FlameState where
  v_template : List Vec3
  shapedirs : NDArray
  faces : List Tri
  num_shape_total : ℕ
  num_shape : ℕ
  num_expr : ℕ
  uvs : Option (List Vec2)
  vt_coords : Option (List Vec2)
  face_vt_indices : Option (List TriZ)
deriving DecidableEq

/-- Entry [i, j, k] of the validated [V, 3, N] shapedirs tensor, read from
the row-major flat data. -/
def FlameState.basis (m : FlameState) (i j k : ℕ) : ℚ :=
  m.shapedirs.data.getD ((i * 3 + j) * m.num_shape_total + k) 0

/-- process_uv_array (simple_flame.py lines 49-68): a 2D array of shape
[v_count, at least 2] keeps its first two columns; a 2D array of shape
[at least 2, v_count] is transposed and keeps its first two rows; any
other shape or rank is ignored (result none). -/
def process_uv_array (raw : NDArray) (v_count : ℕ) : Option (List Vec2) :=
  match raw.shape with
  | [r, c] =>
    if r = v_count ∧ 2 ≤ c then
      some ((List.range v_count).map fun i =>
        ⟨raw.data.getD (i * c) 0, raw.data.getD (i * c + 1) 0⟩)
    else if c = v_count ∧ 2 ≤ r then
      some ((List.range v_count).map fun i =>
        ⟨raw.data.getD i 0, raw.data.getD (c + i) 0⟩)
    else none
  | _ => none

/-- One corner token of an OBJ face line, after splitting on the slash:
vRef is the parsed vertex index (none when the first token does not parse
as an integer), vtRef the parsed UV-pool index (none when the token list
has fewer than two entries, the second token is empty, or it does not
parse).  Both are kept 1-based as written in the file. -/
structure Corner where
  vRef : Option ℤ
  vtRef : Option ℤ
deriving DecidableEq

/-- A parsed line of the UV template OBJ file.  vLine and vtLine are
lines that passed the float parses of the first pass (lines 208-227);
every line that is neither a well-formed v, vt nor f line is other. -/
inductive ObjLine where
  | vLine (x y z : ℚ)
  | vtLine (u w : ℚ)
  | fLine (corners : List Corner)
  | other
deriving DecidableEq

/-- The UV pool: all vt entries in file order (first pass, lines 219-227). -/
def vtPool (lines : List ObjLine) : List Vec2 :=
  lines.filterMap fun l =>
    match l with
    | ObjLine.vtLine u w => some ⟨u, w⟩
    | _ => none

/-- The vertex-position count of the template OBJ (first pass, lines
208-217); only the count is used by the loader. -/
def objVertexCount (lines : List ObjLine) : ℕ :=
  (lines.filterMap fun l =>
    match l with
    | ObjLine.vLine x y z => some (x, y, z)
    | _ => none).length

/-- The per-face vt collection loop body (lines 255-269): walking the
corner tokens of one face line; the first corner without a usable vt
reference empties the collected list and stops (break), so the result is
nonempty only when every corner carries a parsed vt index, each
converted from 1-based to 0-based. -/
def cornerVts (cs : List Corner) : List ℤ :=
  if cs.all fun c => c.vtRef.isSome then
    cs.filterMap fun c => c.vtRef.map fun t => t - 1
  else []

/-- Pass 2 of the template parse (lines 246-276): every face line whose
corner walk produced at least three vt indices contributes its first
three as one row of face_vt_indices. -/
def collectFaceVt (lines : List ObjLine) : List TriZ :=
  lines.filterMap fun l =>
    match l with
    | ObjLine.fLine cs =>
      match cornerVts cs with
      | t0 :: t1 :: t2 :: _ => some ⟨t0, t1, t2⟩
      | _ => none
    | _ => none

/-- try_load_uv_from_template_obj (lines 189-296).  The objFile argument
is none when the template file does not exist (line 190); a result of
none models every path on which the method returns with vt_coords and
face_vt_indices still unset: missing file, empty vt pool (line 242), or
a face count different from the model triangle count (line 280).  The
vertex-count comparison at line 235 only prints a warning. -/
def try_load_uv_from_template_obj (f_count_in_model : ℕ)
    (objFile : Option (List ObjLine)) : Option (List Vec2 × List TriZ) :=
  match objFile with
  | none => none
  | some lines =>
    let pool := vtPool lines
    if pool.length = 0 then none
    else
      let fvt := collectFaceVt lines
      if fvt.length ≠ f_count_in_model then none
      else some (pool, fvt)

/-- The embedded per-vertex UV candidate resolved during loading (lines
94-106 and 142-143): the raw UV array, when one of the keys was present,
run through process_uv_array against the template vertex count. -/
def embedded_uvs (c : Container) : Option (List Vec2) :=
  match c.rawUV with
  | none => none
  | some raw => process_uv_array raw c.v_template.length

/-- The template-UV loading step of init (lines 176-177): attempted only
when no embedded UV was usable and a template path was supplied.  The
outer Option of the argument is none when no path was given. -/
def template_uv_result (c : Container)
    (uv_template_obj : Option (Option (List ObjLine))) :
    Option (List Vec2 × List TriZ) :=
  if (embedded_uvs c).isNone then
    match uv_template_obj with
    | none => none
    | some objFile => try_load_uv_from_template_obj c.faces.length objFile
  else none

/-- SimpleFLAME init (simple_flame.py lines 18-186) for an already parsed
container: the shapedirs rank check of lines 152-156 (three dimensions
with middle axis exactly 3, no other rank accepted), the component
budget check of lines 161-165, then the UV resolution of lines 176-186;
on success the object state is returned. -/
def SimpleFLAME_init (c : Container) (num_shape num_expr : ℕ)
    (uv_template_obj : Option (Option (List ObjLine))) :
    Except String FlameState :=
  match c.shapedirs.shape with
  | [_v, d1, n] =>
    if d1 ≠ 3 then Except.error "expected shapedirs with shape [V,3,N]"
    else if n < num_shape + num_expr then
      Except.error "num_shape plus num_expr exceeds total components"
    else
      Except.ok
        { v_template := c.v_template
          shapedirs := c.shapedirs
          faces := c.faces
          num_shape_total := n
          num_shape := num_shape
          num_expr := num_expr
          uvs := embedded_uvs c
          vt_coords := (template_uv_result c uv_template_obj).map Prod.fst
          face_vt_indices := (template_uv_result c uv_template_obj).map Prod.snd }
  | _ => Except.error "expected shapedirs with shape [V,3,N]"

/-- Lines 306-313 of compute_vertices: the shape-coefficient length check
and the slice assignment betas[0 : len] = shape_coeffs. -/
def applyShapeCoeffs (num_shape : ℕ) (betas : ℕ → ℚ) (cs : List ℚ) :
    Except String (ℕ → ℚ) :=
  if num_shape < cs.length then
    Except.error "shape_coeffs length exceeds num_shape"
  else
    Except.ok fun k => if k < cs.length then cs.getD k 0 else betas k

/-- Lines 315-323 of compute_vertices: the expression-coefficient length
check and the slice assignment betas[num_shape : num_shape + len] =
expr_coeffs. -/
def applyExprCoeffs (num_shape num_expr : ℕ) (betas : ℕ → ℚ) (cs : List ℚ) :
    Except String (ℕ → ℚ) :=
  if num_expr < cs.length then
    Except.error "expr_coeffs length exceeds num_expr"
  else
    Except.ok fun k =>
      if num_shape ≤ k ∧ k - num_shape < cs.length then cs.getD (k - num_shape) 0
      else betas k

/-- The betas vector of compute_vertices (lines 304-323): zero-filled,
then the shape coefficients written at the front, then the expression
coefficients written from slot num_shape on; an omitted argument copies
nothing. -/
def shapeStage (num_shape : ℕ) (sc : Option (List ℚ)) : Except String (ℕ → ℚ) :=
  match sc with
  | none => Except.ok fun _ => 0
  | some cs => applyShapeCoeffs num_shape (fun _ => 0) cs

def exprStage (num_shape num_expr : ℕ) (b1 : ℕ → ℚ) (ec : Option (List ℚ)) :
    Except String (ℕ → ℚ) :=
  match ec with
  | none => Except.ok b1
  | some cs => applyExprCoeffs num_shape num_expr b1 cs

def mkBetas (num_shape num_expr : ℕ) (sc ec : Option (List ℚ)) :
    Except String (ℕ → ℚ) :=
  Except.bind (shapeStage num_shape sc) fun b1 => exprStage num_shape num_expr b1 ec

/-- Vertex i of template + tensordot(shapedirs, betas, axes=[2,0])
(lines 326-327): each spatial component gains the contraction of the
basis row with the coefficient vector. -/
def blendAt (m : FlameState) (betas : ℕ → ℚ) (i : ℕ) : Vec3 :=
  ⟨(m.v_template.getD i zeroVec3).x
      + ∑ k ∈ Finset.range m.num_shape_total, m.basis i 0 k * betas k,
   (m.v_template.getD i zeroVec3).y
      + ∑ k ∈ Finset.range m.num_shape_total, m.basis i 1 k * betas k,
   (m.v_template.getD i zeroVec3).z
      + ∑ k ∈ Finset.range m.num_shape_total, m.basis i 2 k * betas k⟩

/-- compute_vertices (simple_flame.py lines 299-329): build betas from
the two optional coefficient lists, then return the template, with the
blendshape contraction added when any coefficient is nonzero (the
np.any check at line 325 skips the tensordot for all-zero betas). -/
def compute_vertices (m : FlameState) (shape_coeffs expr_coeffs : Option (List ℚ)) :
    Except String (List Vec3) :=
  Except.bind (mkBetas m.num_shape m.num_expr shape_coeffs expr_coeffs)
    fun betas =>
      if (List.range m.num_shape_total).any fun k => decide (betas k ≠ 0) then
        Except.ok ((List.range m.v_template.length).map fun i => blendAt m betas i)
      else
        Except.ok m.v_template

/-- The coefficient vector exactly as the specification words it: a
zero-filled vector with the shape coefficients copied into slots
[0, num_shape) and the expression coefficients into slots
[num_shape, num_shape + num_expr), shorter supplied vectors zero-padded. -/
def specBetas (num_shape : ℕ) (sc ec : List ℚ) (k : ℕ) : ℚ :=
  if k < sc.length then sc.getD k 0
  else if num_shape ≤ k ∧ k - num_shape < ec.length then ec.getD (k - num_shape) 0
  else 0

/-- The evaluator output as the specification words it: output vertex i
equals template vertex i plus the contraction of basis[i, :, k] with the
spec coefficient vector. -/
def specVertices (m : FlameState) (sc ec : List ℚ) : List Vec3 :=
  (List.range m.v_template.length).map fun i =>
    blendAt m (specBetas m.num_shape sc ec) i

/-- The per-face normal contribution n = cross(v1 - v0, v2 - v0) of the
export loop (lines 347-349), computed from the deformed vertices. -/
def faceNormal (verts : ℕ → Vec3) (t : Tri) : Vec3 :=
  crossVec3 (subVec3 (verts t.b) (verts t.a)) (subVec3 (verts t.c) (verts t.a))

/-- One slot update n_accum[slot] += n of the accumulation loop. -/
def bump (acc : ℕ → Vec3) (slot : ℕ) (n : Vec3) : ℕ → Vec3 :=
  fun j => if j = slot then addVec3 (acc j) n else acc j

/-- The normal accumulation loop of export_obj (lines 339-353): a zero
accumulator per vertex; every triangle adds its non-normalized face
normal to the accumulators of its three corners in order. -/
def accumNormals (verts : ℕ → Vec3) (faces : List Tri) : ℕ → Vec3 :=
  faces.foldl
    (fun acc t =>
      bump (bump (bump acc t.a (faceNormal verts t)) t.b (faceNormal verts t)) t.c
        (faceNormal verts t))
    fun _ => zeroVec3

/-- The equal-weight contribution of one triangle to the accumulator of
vertex i: its face normal once per corner that references i. -/
def triContrib (verts : ℕ → Vec3) (i : ℕ) (t : Tri) : Vec3 :=
  addVec3
    (addVec3 (if i = t.a then faceNormal verts t else zeroVec3)
      (if i = t.b then faceNormal verts t else zeroVec3))
    (if i = t.c then faceNormal verts t else zeroVec3)

/-- The squared euclidean norm of an accumulator row. -/
def sqNorm (p : Vec3) : ℚ := p.x ^ 2 + p.y ^ 2 + p.z ^ 2

/-- A normal as written to the file: real-valued components. -/
structure RVec3 where
  x : ℝ
  y : ℝ
  z : ℝ

/-- Euclidean length of a written normal. -/
noncomputable def rNorm (p : RVec3) : ℝ := Real.sqrt (p.x ^ 2 + p.y ^ 2 + p.z ^ 2)

/-- The normalization of lines 355-357: divide each accumulator row by
its euclidean norm, with a zero norm replaced by 1 beforehand (the norm
is zero exactly when the squared norm is zero). -/
noncomputable def normalizeVec (p : Vec3) : RVec3 :=
  ⟨(p.x : ℝ) / (if sqNorm p = 0 then 1 else Real.sqrt (sqNorm p : ℝ)),
   (p.y : ℝ) / (if sqNorm p = 0 then 1 else Real.sqrt (sqNorm p : ℝ)),
   (p.z : ℝ) / (if sqNorm p = 0 then 1 else Real.sqrt (sqNorm p : ℝ))⟩

/-- One written face line: three corners with 1-based indices.  In the
noUV form each corner is vertex//normal with the shared per-vertex
index; in the perVertexUV form vertex/vertex/normal; in the perFaceUV
form the middle index of each corner is the stored vt-pool index. -/
inductive FaceLine where
  | noUV (i0 i1 i2 : ℕ)
  | perVertexUV (i0 i1 i2 : ℕ)
  | perFaceUV (i0 : ℕ) (vt0 : ℤ) (i1 : ℕ) (vt1 : ℤ) (i2 : ℕ) (vt2 : ℤ)
deriving DecidableEq

/-- The serialized OBJ content in writing order: v lines, vt lines,
vn lines, f lines. -/
structure ObjFile where
  vLines : List Vec3
  vtLines : List Vec2
  vnLines : List RVec3
  fLines : List FaceLine

/-- The template-UV dispatch condition of export_obj (lines 359-363). -/
def use_template_uv (m : FlameState) : Bool :=
  match m.vt_coords, m.face_vt_indices with
  | some _, some fvt => fvt.length == m.faces.length
  | _, _ => false

/-- The per-vertex-UV dispatch condition of export_obj (lines 365-368). -/
def use_per_vertex_uv (m : FlameState) (v_count : ℕ) : Bool :=
  match m.uvs with
  | some uv => uv.length == v_count
  | none => false

/-- The file content written by export_obj (lines 338-419) for given
deformed vertices: normals accumulated and normalized, then the four
line blocks, with the face-line format dispatched on the two UV
conditions (template UV first, then per-vertex UV, else no UV). -/
noncomputable def writeObj (m : FlameState) (vertices : List Vec3) : ObjFile :=
  { vLines := vertices
    vtLines :=
      if use_template_uv m then m.vt_coords.getD []
      else if use_per_vertex_uv m vertices.length then m.uvs.getD []
      else []
    vnLines := (List.range vertices.length).map fun i =>
      normalizeVec (accumNormals (fun j => vertices.getD j zeroVec3) m.faces i)
    fLines :=
      if use_template_uv m then
        (m.faces.zip (m.face_vt_indices.getD [])).map fun p =>
          FaceLine.perFaceUV (p.1.a + 1) (p.2.a + 1) (p.1.b + 1) (p.2.b + 1)
            (p.1.c + 1) (p.2.c + 1)
      else if use_per_vertex_uv m vertices.length then
        m.faces.map fun t => FaceLine.perVertexUV (t.a + 1) (t.b + 1) (t.c + 1)
      else
        m.faces.map fun t => FaceLine.noUV (t.a + 1) (t.b + 1) (t.c + 1) }

/-- export_obj (lines 332-424): evaluate the blendshapes first (line
335); only when that succeeds is any file content produced (the
directory creation and file opening of lines 372-374 happen after the
evaluation, so an evaluation error leaves no output). -/
noncomputable def export_obj (m : FlameState) (shape_coeffs expr_coeffs : Option (List ℚ)) :
    Except String ObjFile :=
  Except.bind (compute_vertices m shape_coeffs expr_coeffs)
    fun vertices => Except.ok (writeObj m vertices)

/-- Outcome of the early phase of one CLI main: either the process
terminates (sys.exit with the given status, or a plain return from main,
which ends the process with status 0) after printing the given
messages, or execution proceeds into the real work. -/
inductive CliOutcome where
  | exitWith (code : ℕ) (msgs : List String)
  | proceed
deriving DecidableEq

/-- Argument and input checks of generate_flame_mesh.py main (lines
9-16): fewer than two argv entries prints a usage line and exits with
status 1; a missing config file prints a diagnostic and exits with
status 1. -/
def generate_flame_mesh_early (argc : ℕ) (config_file_exists : Bool) : CliOutcome :=
  if argc < 2 then
    CliOutcome.exitWith 1 ["Usage: python generate_flame_mesh.py config.json"]
  else if !config_file_exists then
    CliOutcome.exitWith 1 ["Config file not found"]
  else CliOutcome.proceed

/-- Argument and input checks of dump_mediapipe_embedding_to_json.py
main (lines 8-17): fewer than three argv entries prints a usage line and
exits with status 1; a missing NPZ file prints a diagnostic and exits
with status 1. -/
def dump_mediapipe_embedding_early (argc : ℕ) (npz_file_exists : Bool) : CliOutcome :=
  if argc < 3 then
    CliOutcome.exitWith 1
      ["Usage: python dump_mediapipe_embedding_to_json.py <mediapipe_landmark_embedding.npz> <out.json>"]
  else if !npz_file_exists then
    CliOutcome.exitWith 1 ["NPZ file not found"]
  else CliOutcome.proceed

/-- The input check of export_flame_landmarks_to_json.py main (lines
6-17): the script takes no positional arguments (the input path is
derived from the script location); when the file is missing it prints
the path line and an ERROR diagnostic and then returns from main, so the
process terminates with exit status 0. -/
def export_flame_landmarks_early (npy_file_exists : Bool) : CliOutcome :=
  if !npy_file_exists then
    CliOutcome.exitWith 0
      ["[export] landmark_embedding.npy: <path>", "[export] ERROR: file not found"]
  else CliOutcome.proceed

/-- All corners of all face lines of the template, in file order. -/
def faceCornerList (lines : List ObjLine) : List Corner :=
  (lines.filterMap fun l =>
    match l with
    | ObjLine.fLine cs => some cs
    | _ => none).flatten

/-- Modelled from the spec: the valid corner references of the
averaged-per-vertex UV variant (spec section 4.2).  A corner reference
is valid when both its vertex index and its UV-pool index are present,
parse, and are in range of the vertex count and the UV pool; both are
converted from 1-based to 0-based.  The variant itself is one of the
divergent UV-resolution revisions the spec consolidates and its code is
not under src/. -/
def validCornerRefs (vCount vtCount : ℕ) (lines : List ObjLine) : List (ℕ × ℕ) :=
  (faceCornerList lines).filterMap fun c =>
    match c.vRef, c.vtRef with
    | some vi, some ti =>
      if 1 ≤ vi ∧ vi ≤ (vCount : ℤ) ∧ 1 ≤ ti ∧ ti ≤ (vtCount : ℤ) then
        some ((vi - 1).toNat, (ti - 1).toNat)
      else none
    | _, _ => none

/-- Modelled from the spec: the per-vertex accumulation of the
averaged-per-vertex UV variant (spec sections 3 and 4.2, code not under
src/): every valid corner reference adds its UV-pool entry to the sum
slot of its vertex and bumps the hit count of that vertex. -/
def uvAccum (pool : List Vec2) (refs : List (ℕ × ℕ)) : ℕ → Vec2 × ℕ :=
  refs.foldl
    (fun acc r => fun j =>
      if j = r.1 then (addVec2 (acc j).1 (pool.getD r.2 zeroVec2), (acc j).2 + 1)
      else acc j)
    fun _ => (zeroVec2, 0)

/-- Modelled from the spec: the averaged-per-vertex UV variant (spec
sections 3 and 4.2; its implementing revision is not under src/).  It
requires the reference vertex count to equal the model vertex count and
a nonempty UV pool; it accumulates UV sum and hit count per vertex over
every valid corner reference in every face line, divides sum by count,
gives vertices with zero hits the UV (0, 0), and reports their number as
the missing tally. -/
def uvAccumOf (vCountModel : ℕ) (lines : List ObjLine) : ℕ → Vec2 × ℕ :=
  uvAccum (vtPool lines) (validCornerRefs vCountModel (vtPool lines).length lines)

/-- Modelled from the spec: the result of the averaged-per-vertex UV
variant, built from the accumulated sums and hit counts (see uvAccumOf). -/
def averaged_uv_from_template (vCountModel : ℕ) (lines : List ObjLine) :
    Option (List Vec2 × ℕ) :=
  if objVertexCount lines ≠ vCountModel then none
  else if (vtPool lines).length = 0 then none
  else
    some
      ((List.range vCountModel).map fun i =>
        if (uvAccumOf vCountModel lines i).2 = 0 then zeroVec2
        else
          ⟨(uvAccumOf vCountModel lines i).1.u / ((uvAccumOf vCountModel lines i).2 : ℚ),
           (uvAccumOf vCountModel lines i).1.v / ((uvAccumOf vCountModel lines i).2 : ℚ)⟩,
      ((List.range vCountModel).filter fun i => (uvAccumOf vCountModel lines i).2 = 0).length)

/-- The corner references hitting vertex i (spec side of claim C4). -/
def vertexHits (vCount : ℕ) (lines : List ObjLine) (i : ℕ) : List (ℕ × ℕ) :=
  (validCornerRefs vCount (vtPool lines).length lines).filter fun r => r.1 = i

/-- The arithmetic mean of all UV values attached to vertex i across the
valid corner references, and (0, 0) for a vertex with no hits (spec side
of claim C4). -/
def meanUV (vCount : ℕ) (lines : List ObjLine) (i : ℕ) : Vec2 :=
  if (vertexHits vCount lines i).length = 0 then zeroVec2
  else
    ⟨(sumVec2 ((vertexHits vCount lines i).map fun r =>
          (vtPool lines).getD r.2 zeroVec2)).u / ((vertexHits vCount lines i).length : ℚ),
     (sumVec2 ((vertexHits vCount lines i).map fun r =>
          (vtPool lines).getD r.2 zeroVec2)).v / ((vertexHits vCount lines i).length : ℚ)⟩

/-! Helper lemmas about list access. -/

theorem getD_map_range {α : Type} (n : ℕ) (f : ℕ → α) (d : α) (i : ℕ) (h : i < n) :
    ((List.range n).map f).getD i d = f i := by
  have hi : i < ((List.range n).map f).length := by simpa using h
  rw [List.getD_eq_getElem?_getD, List.getElem?_eq_getElem hi]
  simp

theorem getD_eq_getElem_of_lt {α : Type} (l : List α) (d : α) (i : ℕ) (h : i < l.length) :
    l.getD i d = l[i] := by
  rw [List.getD_eq_getElem?_getD, List.getElem?_eq_getElem h]
  rfl

/-! The betas construction: the code layers agree with the spec vector. -/

theorem shapeStage_ok (ns : ℕ) (sc : Option (List ℚ)) (hs : (sc.getD []).length ≤ ns) :
    shapeStage ns sc = Except.ok fun k =>
      if k < (sc.getD []).length then (sc.getD []).getD k 0 else 0 := by
  cases sc with
  | none => simp [shapeStage]
  | some cs =>
    simp only [shapeStage, applyShapeCoeffs, Option.getD_some] at hs ⊢
    rw [if_neg (by omega)]

theorem exprStage_ok (ns ne : ℕ) (b1 : ℕ → ℚ) (ec : Option (List ℚ))
    (he : (ec.getD []).length ≤ ne) :
    exprStage ns ne b1 ec = Except.ok fun k =>
      if ns ≤ k ∧ k - ns < (ec.getD []).length then (ec.getD []).getD (k - ns) 0
      else b1 k := by
  cases ec with
  | none => simp [exprStage]
  | some cs =>
    simp only [exprStage, applyExprCoeffs, Option.getD_some] at he ⊢
    rw [if_neg (by omega)]

theorem mkBetas_ok (ns ne : ℕ) (sc ec : Option (List ℚ))
    (hs : (sc.getD []).length ≤ ns) (he : (ec.getD []).length ≤ ne) :
    mkBetas ns ne sc ec = Except.ok fun k =>
      if ns ≤ k ∧ k - ns < (ec.getD []).length then (ec.getD []).getD (k - ns) 0
      else if k < (sc.getD []).length then (sc.getD []).getD k 0
      else 0 := by
  rw [mkBetas, shapeStage_ok ns sc hs]
  show exprStage ns ne _ ec = _
  rw [exprStage_ok ns ne _ ec he]

theorem codeBetas_eq_specBetas (ns : ℕ) (sc ec : List ℚ) (hs : sc.length ≤ ns) :
    (fun k =>
        if ns ≤ k ∧ k - ns < ec.length then ec.getD (k - ns) 0
        else if k < sc.length then sc.getD k 0
        else 0)
      = specBetas ns sc ec := by
  funext k
  unfold specBetas
  by_cases h1 : k < sc.length
  · have h2 : ¬(ns ≤ k ∧ k - ns < ec.length) := by
      rintro ⟨hle, -⟩
      omega
    simp [h1, h2]
  · by_cases h2 : ns ≤ k ∧ k - ns < ec.length <;> simp [h1, h2]

/-! The evaluator agrees with the spec formula. -/

theorem compute_vertices_spec (m : FlameState) (sc ec : Option (List ℚ))
    (hs : (sc.getD []).length ≤ m.num_shape) (he : (ec.getD []).length ≤ m.num_expr) :
    compute_vertices m sc ec
      = Except.ok (specVertices m (sc.getD []) (ec.getD [])) := by
  rw [compute_vertices, mkBetas_ok _ _ _ _ hs he,
    codeBetas_eq_specBetas m.num_shape (sc.getD []) (ec.getD []) hs]
  show (if (List.range m.num_shape_total).any fun k =>
      decide (specBetas m.num_shape (sc.getD []) (ec.getD []) k ≠ 0) then _ else _) = _
  split
  · rfl
  · next hfalse =>
    have hzero : ∀ k < m.num_shape_total,
        specBetas m.num_shape (sc.getD []) (ec.getD []) k = 0 := by
      intro k hk
      by_contra hne
      exact hfalse (List.any_eq_true.mpr ⟨k, List.mem_range.mpr hk, decide_eq_true hne⟩)
    congr 1
    apply List.ext_getElem
    · simp [specVertices]
    · intro i h1 h2
      simp only [specVertices, List.getElem_map, List.getElem_range]
      have hz : ∀ j, ∑ k ∈ Finset.range m.num_shape_total,
          m.basis i j k * specBetas m.num_shape (sc.getD []) (ec.getD []) k = 0 := by
        intro j
        apply Finset.sum_eq_zero
        intro k hk
        rw [hzero k (Finset.mem_range.mp hk), mul_zero]
      rw [blendAt, hz 0, hz 1, hz 2]
      rw [getD_eq_getElem_of_lt m.v_template zeroVec3 i h1]
      apply Vec3.ext <;> simp

theorem specVertices_length (m : FlameState) (sc ec : List ℚ) :
    (specVertices m sc ec).length = m.v_template.length := by
  simp [specVertices]

theorem compute_vertices_length (m : FlameState) (sc ec : Option (List ℚ)) (vs : List Vec3)
    (h : compute_vertices m sc ec = Except.ok vs) : vs.length = m.v_template.length := by
  rw [compute_vertices] at h
  cases hmk : mkBetas m.num_shape m.num_expr sc ec with
  | error e => rw [hmk] at h; exact absurd h (by simp [Except.bind])
  | ok betas =>
    rw [hmk] at h
    simp only [Except.bind] at h
    split at h <;> (cases h; simp)

/-- Claim C1: for every loaded model and admissible coefficient pair the
evaluator returns exactly the template plus the tensor contraction with
the zero-filled, sliced coefficient vector the specification describes;
omitted arguments act as all-zero, shorter vectors are zero-padded. -/
theorem claim_C1 (m : FlameState) (sc ec : Option (List ℚ))
    (hs : (sc.getD []).length ≤ m.num_shape) (he : (ec.getD []).length ≤ m.num_expr) :
    compute_vertices m sc ec
      = Except.ok (specVertices m (sc.getD []) (ec.getD [])) :=
  compute_vertices_spec m sc ec hs he

/-! Linearity of the evaluator in the coefficients. -/

theorem getD_zipWith_add (l1 l2 : List ℚ) (hl : l1.length = l2.length) (k : ℕ)
    (h : k < l1.length) :
    (List.zipWith (· + ·) l1 l2).getD k 0 = l1.getD k 0 + l2.getD k 0 := by
  have h2 : k < l2.length := hl ▸ h
  have hz : k < (List.zipWith (· + ·) l1 l2).length := by
    rw [List.length_zipWith, hl, min_self]
    exact h2
  rw [getD_eq_getElem_of_lt _ _ _ hz, getD_eq_getElem_of_lt _ _ _ h,
    getD_eq_getElem_of_lt _ _ _ h2]
  simp

theorem specBetas_zipWith (ns : ℕ) (s1 s2 e1 e2 : List ℚ)
    (hs : s1.length = s2.length) (he : e1.length = e2.length) (k : ℕ) :
    specBetas ns (List.zipWith (· + ·) s1 s2) (List.zipWith (· + ·) e1 e2) k
      = specBetas ns s1 e1 k + specBetas ns s2 e2 k := by
  unfold specBetas
  have hls : (List.zipWith (· + ·) s1 s2).length = s1.length := by
    rw [List.length_zipWith, hs, min_self]
  have hle : (List.zipWith (· + ·) e1 e2).length = e1.length := by
    rw [List.length_zipWith, he, min_self]
  rw [hls, hle, ← hs, ← he]
  by_cases h1 : k < s1.length
  · have h1b : k < s2.length := hs ▸ h1
    have hzk : k < (List.zipWith (· + ·) s1 s2).length := by
      rw [hls]
      exact h1
    simp [h1, List.getD_eq_getElem?_getD, List.getElem?_eq_getElem h1,
      List.getElem?_eq_getElem h1b, List.getElem?_eq_getElem hzk, List.getElem_zipWith]
  · by_cases h2 : ns ≤ k ∧ k - ns < e1.length
    · have h2b : k - ns < e2.length := he ▸ h2.2
      have hzk : k - ns < (List.zipWith (· + ·) e1 e2).length := by
        rw [hle]
        exact h2.2
      simp [h1, h2, List.getD_eq_getElem?_getD, List.getElem?_eq_getElem h2.2,
        List.getElem?_eq_getElem h2b, List.getElem?_eq_getElem hzk, List.getElem_zipWith]
    · simp [h1, h2]

theorem blendAt_congr (m : FlameState) (b1 b2 : ℕ → ℚ) (i : ℕ)
    (h : ∀ k, b1 k = b2 k) : blendAt m b1 i = blendAt m b2 i := by
  rw [funext h]

theorem blendAt_add (m : FlameState) (b1 b2 : ℕ → ℚ) (i : ℕ) :
    blendAt m (fun k => b1 k + b2 k) i
      = subVec3 (addVec3 (blendAt m b1 i) (blendAt m b2 i))
          (m.v_template.getD i zeroVec3) := by
  have hsplit : ∀ j, ∑ k ∈ Finset.range m.num_shape_total, m.basis i j k * (b1 k + b2 k)
      = (∑ k ∈ Finset.range m.num_shape_total, m.basis i j k * b1 k)
        + ∑ k ∈ Finset.range m.num_shape_total, m.basis i j k * b2 k := by
    intro j
    rw [← Finset.sum_add_distrib]
    apply Finset.sum_congr rfl
    intro k _
    ring
  simp only [blendAt, addVec3, subVec3]
  refine Vec3.ext ?_ ?_ ?_ <;> simp only [] <;> rw [hsplit] <;> ring

/-- Claim C2: the evaluator satisfies superposition; for coefficient
vectors of matching admissible length, evaluating the sum of the
coefficients gives, vertex-wise, the sum of the two evaluations minus
the template. -/
theorem claim_C2 (m : FlameState) (s1 s2 e1 e2 : List ℚ)
    (hslen : s1.length = s2.length) (hs : s1.length ≤ m.num_shape)
    (helen : e1.length = e2.length) (he : e1.length ≤ m.num_expr) :
    compute_vertices m (some (List.zipWith (· + ·) s1 s2))
        (some (List.zipWith (· + ·) e1 e2))
      = Except.ok ((List.range m.v_template.length).map fun i =>
          subVec3
            (addVec3 ((specVertices m s1 e1).getD i zeroVec3)
              ((specVertices m s2 e2).getD i zeroVec3))
            (m.v_template.getD i zeroVec3))
    ∧ compute_vertices m (some s1) (some e1) = Except.ok (specVertices m s1 e1)
    ∧ compute_vertices m (some s2) (some e2) = Except.ok (specVertices m s2 e2) := by
  have hz1 : ((some (List.zipWith (· + ·) s1 s2) : Option (List ℚ)).getD []).length
      ≤ m.num_shape := by
    simp only [Option.getD_some, List.length_zipWith]
    omega
  have hz2 : ((some (List.zipWith (· + ·) e1 e2) : Option (List ℚ)).getD []).length
      ≤ m.num_expr := by
    simp only [Option.getD_some, List.length_zipWith]
    omega
  refine ⟨?_, compute_vertices_spec m (some s1) (some e1) hs he,
    compute_vertices_spec m (some s2) (some e2) (hslen ▸ hs) (helen ▸ he)⟩
  rw [compute_vertices_spec m _ _ hz1 hz2]
  congr 1
  unfold specVertices
  apply List.ext_getElem
  · simp
  · intro i h1 h2
    simp only [List.getElem_map, List.getElem_range]
    have hi : i < m.v_template.length := by simpa using h1
    rw [getD_map_range _ _ _ _ hi, getD_map_range _ _ _ _ hi, ← blendAt_add]
    exact blendAt_congr m _ _ i fun k =>
      specBetas_zipWith m.num_shape s1 s2 e1 e2 hslen helen k

/-! Coefficient-length errors abort evaluation and leave the export
without any produced file content. -/

/-- Claim C5: an over-long shape (or expression) coefficient vector makes
the evaluator fail with a length error regardless of content, and the
export fails with that same error before producing any file content (the
evaluation happens before any directory creation or file opening). -/
theorem claim_C5 (m : FlameState) :
    (∀ (sc : List ℚ) (ec : Option (List ℚ)), m.num_shape < sc.length →
      compute_vertices m (some sc) ec
          = Except.error "shape_coeffs length exceeds num_shape"
        ∧ export_obj m (some sc) ec
          = Except.error "shape_coeffs length exceeds num_shape")
    ∧ ∀ (sc : Option (List ℚ)) (ec : List ℚ), (sc.getD []).length ≤ m.num_shape →
        m.num_expr < ec.length →
        compute_vertices m sc (some ec)
            = Except.error "expr_coeffs length exceeds num_expr"
          ∧ export_obj m sc (some ec)
            = Except.error "expr_coeffs length exceeds num_expr" := by
  constructor
  · intro sc ec h
    have hstage : shapeStage m.num_shape (some sc)
        = Except.error "shape_coeffs length exceeds num_shape" := by
      simp [shapeStage, applyShapeCoeffs, h]
    have hcv : compute_vertices m (some sc) ec
        = Except.error "shape_coeffs length exceeds num_shape" := by
      rw [compute_vertices, mkBetas, hstage]
      rfl
    exact ⟨hcv, by rw [export_obj, hcv]; rfl⟩
  · intro sc ec hs h
    have hexpr : ∀ b1 : ℕ → ℚ, exprStage m.num_shape m.num_expr b1 (some ec)
        = Except.error "expr_coeffs length exceeds num_expr" := by
      intro b1
      simp [exprStage, applyExprCoeffs, h]
    have hcv : compute_vertices m sc (some ec)
        = Except.error "expr_coeffs length exceeds num_expr" := by
      rw [compute_vertices, mkBetas, shapeStage_ok m.num_shape sc hs]
      simp only [Except.bind]
      rw [hexpr]
    exact ⟨hcv, by rw [export_obj, hcv]; rfl⟩

/-! Loader lemmas. -/

theorem init_shape_triple (c : Container) (ns ne : ℕ)
    (tmpl : Option (Option (List ObjLine))) (v0 d1 n0 : ℕ)
    (hs : c.shapedirs.shape = [v0, d1, n0]) :
    SimpleFLAME_init c ns ne tmpl
      = if d1 ≠ 3 then Except.error "expected shapedirs with shape [V,3,N]"
        else if n0 < ns + ne then
          Except.error "num_shape plus num_expr exceeds total components"
        else
          Except.ok
            { v_template := c.v_template
              shapedirs := c.shapedirs
              faces := c.faces
              num_shape_total := n0
              num_shape := ns
              num_expr := ne
              uvs := embedded_uvs c
              vt_coords := (template_uv_result c tmpl).map Prod.fst
              face_vt_indices := (template_uv_result c tmpl).map Prod.snd } := by
  unfold SimpleFLAME_init
  rw [hs]

theorem init_shape_two (c : Container) (ns ne : ℕ)
    (tmpl : Option (Option (List ObjLine))) (r s : ℕ)
    (hs : c.shapedirs.shape = [r, s]) :
    SimpleFLAME_init c ns ne tmpl
      = Except.error "expected shapedirs with shape [V,3,N]" := by
  unfold SimpleFLAME_init
  rw [hs]

theorem init_ok_fields (c : Container) (ns ne : ℕ)
    (tmpl : Option (Option (List ObjLine))) (m : FlameState)
    (h : SimpleFLAME_init c ns ne tmpl = Except.ok m) :
    m.v_template = c.v_template ∧ m.faces = c.faces
    ∧ m.num_shape = ns ∧ m.num_expr = ne
    ∧ m.uvs = embedded_uvs c
    ∧ m.vt_coords = (template_uv_result c tmpl).map Prod.fst
    ∧ m.face_vt_indices = (template_uv_result c tmpl).map Prod.snd := by
  unfold SimpleFLAME_init at h
  split at h
  · split_ifs at h
    injection h with h2
    subst h2
    exact ⟨rfl, rfl, rfl, rfl, rfl, rfl, rfl⟩
  · exact absurd h (by simp)

theorem process_uv_array_length (raw : NDArray) (vc : ℕ) (u : List Vec2)
    (h : process_uv_array raw vc = some u) : u.length = vc := by
  unfold process_uv_array at h
  split at h
  · split_ifs at h <;> (injection h with h2; rw [← h2]; simp)
  · exact absurd h (by simp)

/-- Claim C3 as corrected: the loader accepts only an already 3D
shapedirs array whose middle axis is exactly 3; a 2D array of any shape
(including the flattened [V * 3, N] form the spec describes) is a fatal
error and is never reshaped, and a rank-3 array with middle axis other
than 3 is a fatal error, while a [V, 3, N] array within the component
budget loads successfully. -/
theorem claim_C3 (c : Container) (ns ne : ℕ)
    (tmpl : Option (Option (List ObjLine))) :
    ((∃ r s, c.shapedirs.shape = [r, s]) →
      SimpleFLAME_init c ns ne tmpl
        = Except.error "expected shapedirs with shape [V,3,N]")
    ∧ (∀ v0 d1 n0, c.shapedirs.shape = [v0, d1, n0] → d1 ≠ 3 →
      SimpleFLAME_init c ns ne tmpl
        = Except.error "expected shapedirs with shape [V,3,N]")
    ∧ ∀ v0 n0, c.shapedirs.shape = [v0, 3, n0] → ns + ne ≤ n0 →
      ∃ m, SimpleFLAME_init c ns ne tmpl = Except.ok m := by
  refine ⟨?_, ?_, ?_⟩
  · rintro ⟨r, s, hs⟩
    exact init_shape_two c ns ne tmpl r s hs
  · intro v0 d1 n0 hs hd
    rw [init_shape_triple c ns ne tmpl v0 d1 n0 hs, if_pos hd]
  · intro v0 n0 hs hb
    rw [init_shape_triple c ns ne tmpl v0 3 n0 hs]
    rw [if_neg (by simp), if_neg (by omega)]
    exact ⟨_, rfl⟩

/-- A concrete well-formed container whose shapedirs is the flattened 2D
form [V * 3, N] with V = 4, N = 2: the loader rejects it. -/
def badContainer : Container :=
  { v_template := [⟨0, 0, 0⟩, ⟨1, 0, 0⟩, ⟨0, 1, 0⟩, ⟨0, 0, 1⟩]
    shapedirs := { shape := [12, 2], data := List.replicate 24 1 }
    faces := [⟨0, 1, 2⟩, ⟨0, 2, 3⟩]
    rawUV := none }

/-- Counterexample to claim C3 as stated: a model container whose
shapedirs is a flattened 2D array of shape [V * 3, N] matching the
template vertex count is not loaded by reshaping; loading fails with the
rank error. -/
theorem claim_C3_counterexample :
    SimpleFLAME_init badContainer 1 1 none
      = Except.error "expected shapedirs with shape [V,3,N]" := rfl

theorem claim_C3_witness :
    ((∃ r s, badContainer.shapedirs.shape = [r, s]) →
      SimpleFLAME_init badContainer 1 1 none
        = Except.error "expected shapedirs with shape [V,3,N]")
    ∧ (∃ r s, badContainer.shapedirs.shape = [r, s])
    ∧ SimpleFLAME_init badContainer 1 1 none
        = Except.error "expected shapedirs with shape [V,3,N]" :=
  ⟨(claim_C3 badContainer 1 1 none).1, ⟨12, 2, rfl⟩,
    (claim_C3 badContainer 1 1 none).1 ⟨12, 2, rfl⟩⟩

/-- Claim C10: after a successful construction at most one UV source is
populated; embedded UV present forces both template fields to none, the
two template fields are set or unset together, and the two export
dispatch conditions are never simultaneously true. -/
theorem claim_C10 (c : Container) (ns ne : ℕ)
    (tmpl : Option (Option (List ObjLine))) (m : FlameState)
    (h : SimpleFLAME_init c ns ne tmpl = Except.ok m) :
    (m.uvs.isSome = true → m.vt_coords = none ∧ m.face_vt_indices = none)
    ∧ (m.vt_coords = none ↔ m.face_vt_indices = none)
    ∧ ∀ v_count : ℕ,
        ¬(use_template_uv m = true ∧ use_per_vertex_uv m v_count = true) := by
  obtain ⟨-, -, -, -, hu, hvt, hfvt⟩ := init_ok_fields c ns ne tmpl m h
  refine ⟨?_, ?_, ?_⟩
  · intro hsome
    have hnone : template_uv_result c tmpl = none := by
      unfold template_uv_result
      rw [if_neg]
      rw [hu] at hsome
      simp [Option.isNone_iff_eq_none]
      exact Option.ne_none_iff_isSome.mpr hsome
    rw [hvt, hfvt, hnone]
    exact ⟨rfl, rfl⟩
  · rw [hvt, hfvt]
    cases template_uv_result c tmpl <;> simp
  · rintro v_count ⟨ht, hp⟩
    cases htuv : template_uv_result c tmpl with
    | none =>
      rw [use_template_uv, hvt, hfvt, htuv] at ht
      simp at ht
    | some p =>
      have hemb : embedded_uvs c = none := by
        unfold template_uv_result at htuv
        by_cases hn : (embedded_uvs c).isNone
        · exact Option.isNone_iff_eq_none.mp hn
        · rw [if_neg hn] at htuv
          exact absurd htuv (by simp)
      rw [use_per_vertex_uv, hu, hemb] at hp
      simp at hp

/-! UV priority and fallback in the export. -/

/-- Claim C6: when the model carries usable embedded per-vertex UV, the
constructed state never consults the template (both template fields stay
none) and the export writes the embedded UV with per-vertex face lines. -/
theorem claim_C6 (c : Container) (ns ne : ℕ) (tmpl : Option (List ObjLine))
    (m : FlameState) (raw : NDArray) (u : List Vec2)
    (hraw : c.rawUV = some raw)
    (hu : process_uv_array raw c.v_template.length = some u)
    (hinit : SimpleFLAME_init c ns ne (some tmpl) = Except.ok m)
    (sc ec : List ℚ) (hs : sc.length ≤ ns) (he : ec.length ≤ ne) :
    m.uvs = some u ∧ m.vt_coords = none ∧ m.face_vt_indices = none
    ∧ export_obj m (some sc) (some ec)
        = Except.ok (writeObj m (specVertices m sc ec))
    ∧ (writeObj m (specVertices m sc ec)).vtLines = u
    ∧ (writeObj m (specVertices m sc ec)).fLines
        = m.faces.map fun t => FaceLine.perVertexUV (t.a + 1) (t.b + 1) (t.c + 1) := by
  obtain ⟨hvtempl, hfaces, hns, hnexp, hum, hvt, hfvt⟩ :=
    init_ok_fields c ns ne (some tmpl) m hinit
  have hemb : embedded_uvs c = some u := by
    unfold embedded_uvs
    rw [hraw]
    exact hu
  have hmu : m.uvs = some u := by rw [hum, hemb]
  have htuv : template_uv_result c (some tmpl) = none := by
    unfold template_uv_result
    rw [if_neg]
    simp [hemb]
  have hmvt : m.vt_coords = none := by
    rw [hvt, htuv]
    rfl
  have hmfvt : m.face_vt_indices = none := by
    rw [hfvt, htuv]
    rfl
  have hcv : compute_vertices m (some sc) (some ec)
      = Except.ok (specVertices m sc ec) := by
    have h1 : ((some sc : Option (List ℚ)).getD []).length ≤ m.num_shape := by
      simp only [Option.getD_some]
      rw [hns]
      exact hs
    have h2 : ((some ec : Option (List ℚ)).getD []).length ≤ m.num_expr := by
      simp only [Option.getD_some]
      rw [hnexp]
      exact he
    simpa using compute_vertices_spec m (some sc) (some ec) h1 h2
  have hexp : export_obj m (some sc) (some ec)
      = Except.ok (writeObj m (specVertices m sc ec)) := by
    rw [export_obj, hcv]
    rfl
  have hulen : u.length = c.v_template.length :=
    process_uv_array_length raw c.v_template.length u hu
  have hut : use_template_uv m = false := by
    unfold use_template_uv
    rw [hmvt]
  have hpv : use_per_vertex_uv m (specVertices m sc ec).length = true := by
    unfold use_per_vertex_uv
    rw [hmu]
    simp [specVertices_length, hvtempl, hulen]
  refine ⟨hmu, hmvt, hmfvt, hexp, ?_, ?_⟩
  · simp [writeObj, hut, hpv, hmu]
  · simp [writeObj, hut, hpv]

/-- Claim C7: without embedded UV and with a template whose usable face
count differs from the model triangle count, construction still succeeds
with no UV source populated and the export writes face lines without a
UV index. -/
theorem claim_C7 (c : Container) (ns ne v0 n0 : ℕ) (lines : List ObjLine)
    (hshape : c.shapedirs.shape = [v0, 3, n0]) (hbudget : ns + ne ≤ n0)
    (hnoemb : embedded_uvs c = none)
    (hmismatch : (collectFaceVt lines).length ≠ c.faces.length) :
    ∃ m : FlameState,
      SimpleFLAME_init c ns ne (some (some lines)) = Except.ok m
      ∧ m.uvs = none ∧ m.vt_coords = none ∧ m.face_vt_indices = none
      ∧ ∀ (sc ec : List ℚ), sc.length ≤ ns → ec.length ≤ ne →
          export_obj m (some sc) (some ec)
              = Except.ok (writeObj m (specVertices m sc ec))
          ∧ (writeObj m (specVertices m sc ec)).vtLines = []
          ∧ (writeObj m (specVertices m sc ec)).fLines
              = m.faces.map fun t => FaceLine.noUV (t.a + 1) (t.b + 1) (t.c + 1) := by
  have htl : try_load_uv_from_template_obj c.faces.length (some lines) = none := by
    unfold try_load_uv_from_template_obj
    by_cases hpool : (vtPool lines).length = 0
    · simp [hpool]
    · simp [hpool, hmismatch]
  have htuv : template_uv_result c (some (some lines)) = none := by
    unfold template_uv_result
    rw [if_pos (by simp [hnoemb])]
    exact htl
  have hinit : ∃ m, SimpleFLAME_init c ns ne (some (some lines)) = Except.ok m := by
    rw [init_shape_triple c ns ne (some (some lines)) v0 3 n0 hshape,
      if_neg (by simp), if_neg (by omega)]
    exact ⟨_, rfl⟩
  obtain ⟨m, hm⟩ := hinit
  obtain ⟨hvtempl, hfaces, hns, hnexp, hum, hvt, hfvt⟩ :=
    init_ok_fields c ns ne (some (some lines)) m hm
  have hmu : m.uvs = none := by rw [hum, hnoemb]
  have hmvt : m.vt_coords = none := by
    rw [hvt, htuv]
    rfl
  have hmfvt : m.face_vt_indices = none := by
    rw [hfvt, htuv]
    rfl
  refine ⟨m, hm, hmu, hmvt, hmfvt, ?_⟩
  intro sc ec hsc hec
  have hcv : compute_vertices m (some sc) (some ec)
      = Except.ok (specVertices m sc ec) := by
    have h1 : ((some sc : Option (List ℚ)).getD []).length ≤ m.num_shape := by
      simp only [Option.getD_some]
      rw [hns]
      exact hsc
    have h2 : ((some ec : Option (List ℚ)).getD []).length ≤ m.num_expr := by
      simp only [Option.getD_some]
      rw [hnexp]
      exact hec
    simpa using compute_vertices_spec m (some sc) (some ec) h1 h2
  have hut : use_template_uv m = false := by
    unfold use_template_uv
    rw [hmvt]
  have hpv : use_per_vertex_uv m (specVertices m sc ec).length = false := by
    unfold use_per_vertex_uv
    rw [hmu]
  refine ⟨?_, ?_, ?_⟩
  · rw [export_obj, hcv]
    rfl
  · simp [writeObj, hut, hpv]
  · simp [writeObj, hut, hpv]

/-! Concrete inputs for the loader-side witnesses. -/

def rawU : NDArray := { shape := [3, 2], data := [0, 0, 1, 0, 0, 1] }

def cU : Container :=
  { v_template := [⟨0, 0, 0⟩, ⟨1, 0, 0⟩, ⟨0, 1, 0⟩]
    shapedirs := { shape := [3, 3, 1], data := List.replicate 9 0 }
    faces := [⟨0, 1, 2⟩]
    rawUV := some rawU }

def uU : List Vec2 := [⟨0, 0⟩, ⟨1, 0⟩, ⟨0, 1⟩]

def mU : FlameState :=
  { v_template := [⟨0, 0, 0⟩, ⟨1, 0, 0⟩, ⟨0, 1, 0⟩]
    shapedirs := { shape := [3, 3, 1], data := List.replicate 9 0 }
    faces := [⟨0, 1, 2⟩]
    num_shape_total := 1
    num_shape := 1
    num_expr := 0
    uvs := some uU
    vt_coords := none
    face_vt_indices := none }

theorem claim_C6_witness :
    cU.rawUV = some rawU
    ∧ process_uv_array rawU cU.v_template.length = some uU
    ∧ SimpleFLAME_init cU 1 0 (some (some [ObjLine.vtLine 0 0])) = Except.ok mU
    ∧ mU.uvs = some uU :=
  ⟨rfl, rfl, rfl,
    (claim_C6 cU 1 0 (some [ObjLine.vtLine 0 0]) mU rawU uU rfl rfl rfl [] []
      (by decide) (by decide)).1⟩

def cV : Container :=
  { v_template := [⟨0, 0, 0⟩, ⟨1, 0, 0⟩, ⟨0, 1, 0⟩]
    shapedirs := { shape := [3, 3, 1], data := List.replicate 9 0 }
    faces := [⟨0, 1, 2⟩]
    rawUV := none }

def linesV : List ObjLine :=
  [ObjLine.vtLine 0 0,
   ObjLine.fLine [⟨some 1, some 1⟩, ⟨some 2, some 1⟩, ⟨some 3, some 1⟩],
   ObjLine.fLine [⟨some 1, some 1⟩, ⟨some 3, some 1⟩, ⟨some 2, some 1⟩]]

theorem claim_C7_witness :
    embedded_uvs cV = none
    ∧ (collectFaceVt linesV).length ≠ cV.faces.length
    ∧ ∃ m : FlameState,
        SimpleFLAME_init cV 1 0 (some (some linesV)) = Except.ok m
        ∧ m.uvs = none ∧ m.vt_coords = none ∧ m.face_vt_indices = none
        ∧ ∀ (sc ec : List ℚ), sc.length ≤ 1 → ec.length ≤ 0 →
            export_obj m (some sc) (some ec)
                = Except.ok (writeObj m (specVertices m sc ec))
            ∧ (writeObj m (specVertices m sc ec)).vtLines = []
            ∧ (writeObj m (specVertices m sc ec)).fLines
                = m.faces.map fun t => FaceLine.noUV (t.a + 1) (t.b + 1) (t.c + 1) :=
  ⟨rfl, by decide,
    claim_C7 cV 1 0 3 1 linesV rfl (by decide) rfl (by decide)⟩

def mW : FlameState :=
  { v_template := [⟨0, 0, 0⟩]
    shapedirs := { shape := [1, 3, 1], data := [1, 2, 3] }
    faces := []
    num_shape_total := 1
    num_shape := 1
    num_expr := 0
    uvs := none
    vt_coords := none
    face_vt_indices := none }

def cW : Container :=
  { v_template := [⟨0, 0, 0⟩]
    shapedirs := { shape := [1, 3, 1], data := [1, 2, 3] }
    faces := []
    rawUV := none }

theorem claim_C10_witness :
    SimpleFLAME_init cW 1 0 none = Except.ok mW
    ∧ ((mW.uvs.isSome = true → mW.vt_coords = none ∧ mW.face_vt_indices = none)
      ∧ (mW.vt_coords = none ↔ mW.face_vt_indices = none)
      ∧ ∀ v_count : ℕ,
          ¬(use_template_uv mW = true ∧ use_per_vertex_uv mW v_count = true)) :=
  ⟨rfl, claim_C10 cW 1 0 none mW rfl⟩

/-! Normal accumulation and normalization. -/

theorem accum_step_apply (verts : ℕ → Vec3) (acc : ℕ → Vec3) (t : Tri) (i : ℕ) :
    bump (bump (bump acc t.a (faceNormal verts t)) t.b (faceNormal verts t)) t.c
        (faceNormal verts t) i
      = addVec3 (acc i) (triContrib verts i t) := by
  simp only [bump, triContrib]
  split_ifs <;> (apply Vec3.ext <;> simp [addVec3, zeroVec3] <;> ring)

theorem accum_foldl (verts : ℕ → Vec3) (faces : List Tri) (acc : ℕ → Vec3) (i : ℕ) :
    (faces.foldl
        (fun acc t =>
          bump (bump (bump acc t.a (faceNormal verts t)) t.b (faceNormal verts t)) t.c
            (faceNormal verts t))
        acc) i
      = addVec3 (acc i) (sumVec3 (faces.map fun t => triContrib verts i t)) := by
  induction faces generalizing acc with
  | nil =>
    apply Vec3.ext <;> simp [sumVec3, addVec3, zeroVec3]
  | cons t ts ih =>
    simp only [List.foldl_cons, List.map_cons]
    rw [ih]
    rw [accum_step_apply]
    apply Vec3.ext <;> simp [sumVec3, addVec3] <;> ring

theorem accumNormals_eq_sum (verts : ℕ → Vec3) (faces : List Tri) (i : ℕ) :
    accumNormals verts faces i
      = sumVec3 (faces.map fun t => triContrib verts i t) := by
  unfold accumNormals
  rw [accum_foldl]
  apply Vec3.ext <;> simp [addVec3, zeroVec3]

theorem sqNorm_eq_zero_iff (p : Vec3) : sqNorm p = 0 ↔ p = zeroVec3 := by
  constructor
  · intro h
    have h1 := sq_nonneg p.x
    have h2 := sq_nonneg p.y
    have h3 := sq_nonneg p.z
    unfold sqNorm at h
    have hx : p.x ^ 2 = 0 := by nlinarith
    have hy : p.y ^ 2 = 0 := by nlinarith
    have hz : p.z ^ 2 = 0 := by nlinarith
    have hxx : p.x = 0 := pow_eq_zero_iff (by norm_num) |>.mp hx
    have hyy : p.y = 0 := pow_eq_zero_iff (by norm_num) |>.mp hy
    have hzz : p.z = 0 := pow_eq_zero_iff (by norm_num) |>.mp hz
    apply Vec3.ext <;> simp [zeroVec3, hxx, hyy, hzz]
  · intro h
    subst h
    simp [sqNorm, zeroVec3]

theorem normalizeVec_zero : normalizeVec zeroVec3 = ⟨0, 0, 0⟩ := by
  unfold normalizeVec
  rw [if_pos (by simp [sqNorm, zeroVec3])]
  simp [zeroVec3]

theorem normalizeVec_unit (p : Vec3) (h : p ≠ zeroVec3) :
    rNorm (normalizeVec p) = 1 := by
  have hs0 : sqNorm p ≠ 0 := fun hz => h ((sqNorm_eq_zero_iff p).mp hz)
  have hsnn : (0 : ℚ) ≤ sqNorm p := by
    unfold sqNorm
    positivity
  have hspos : (0 : ℚ) < sqNorm p := lt_of_le_of_ne hsnn (Ne.symm hs0)
  have hrpos : (0 : ℝ) < (sqNorm p : ℝ) := by exact_mod_cast hspos
  have hsq : Real.sqrt (sqNorm p : ℝ) ^ 2 = (sqNorm p : ℝ) :=
    Real.sq_sqrt (le_of_lt hrpos)
  have hsum : ((p.x : ℝ) / Real.sqrt (sqNorm p : ℝ)) ^ 2
      + ((p.y : ℝ) / Real.sqrt (sqNorm p : ℝ)) ^ 2
      + ((p.z : ℝ) / Real.sqrt (sqNorm p : ℝ)) ^ 2 = 1 := by
    have expand : ((p.x : ℝ) / Real.sqrt (sqNorm p : ℝ)) ^ 2
        + ((p.y : ℝ) / Real.sqrt (sqNorm p : ℝ)) ^ 2
        + ((p.z : ℝ) / Real.sqrt (sqNorm p : ℝ)) ^ 2
        = ((p.x : ℝ) ^ 2 + (p.y : ℝ) ^ 2 + (p.z : ℝ) ^ 2)
            / Real.sqrt (sqNorm p : ℝ) ^ 2 := by
      ring
    have hcast : (p.x : ℝ) ^ 2 + (p.y : ℝ) ^ 2 + (p.z : ℝ) ^ 2 = (sqNorm p : ℝ) := by
      push_cast [sqNorm]
      ring
    rw [expand, hsq, hcast]
    exact div_self (ne_of_gt hrpos)
  unfold rNorm normalizeVec
  rw [if_neg hs0]
  dsimp only []
  rw [hsum]
  exact Real.sqrt_one

/-- Claim C8: the export succeeds for admissible coefficients; the
written normals are exactly the normalizations of the per-vertex
accumulators; each accumulator is the equal-weight sum over the
triangles of that vertex of the non-normalized edge cross product; a
zero accumulator stays the exact zero vector (its norm is replaced by 1
before division), and every nonzero accumulator normalizes to unit
length. -/
theorem claim_C8 (m : FlameState) (sc ec : Option (List ℚ))
    (hs : (sc.getD []).length ≤ m.num_shape) (he : (ec.getD []).length ≤ m.num_expr) :
    export_obj m sc ec
        = Except.ok (writeObj m (specVertices m (sc.getD []) (ec.getD [])))
    ∧ (writeObj m (specVertices m (sc.getD []) (ec.getD []))).vnLines
        = (List.range (specVertices m (sc.getD []) (ec.getD [])).length).map
            (fun i => normalizeVec (accumNormals
              (fun j => (specVertices m (sc.getD []) (ec.getD [])).getD j zeroVec3)
              m.faces i))
    ∧ (∀ i, accumNormals
          (fun j => (specVertices m (sc.getD []) (ec.getD [])).getD j zeroVec3)
          m.faces i
        = sumVec3 (m.faces.map fun t =>
            triContrib
              (fun j => (specVertices m (sc.getD []) (ec.getD [])).getD j zeroVec3) i t))
    ∧ normalizeVec zeroVec3 = ⟨0, 0, 0⟩
    ∧ ∀ p : Vec3, p ≠ zeroVec3 → rNorm (normalizeVec p) = 1 := by
  refine ⟨?_, rfl, ?_, normalizeVec_zero, normalizeVec_unit⟩
  · rw [export_obj, compute_vertices_spec m sc ec hs he]
    rfl
  · intro i
    exact accumNormals_eq_sum _ m.faces i

theorem claim_C8_witness :
    export_obj mU none none = Except.ok (writeObj mU (specVertices mU [] []))
    ∧ ∀ p : Vec3, p ≠ zeroVec3 → rNorm (normalizeVec p) = 1 :=
  ⟨(claim_C8 mU none none (by decide) (by decide)).1,
   (claim_C8 mU none none (by decide) (by decide)).2.2.2.2⟩

/-! Evaluator witnesses. -/

theorem claim_C1_witness :
    ((some [(2 : ℚ)] : Option (List ℚ)).getD []).length ≤ mW.num_shape
    ∧ compute_vertices mW (some [(2 : ℚ)]) none
        = Except.ok (specVertices mW [(2 : ℚ)] []) :=
  ⟨by decide, claim_C1 mW (some [(2 : ℚ)]) none (by decide) (by decide)⟩

theorem claim_C2_witness :
    ([(1 : ℚ)] : List ℚ).length = ([(2 : ℚ)] : List ℚ).length
    ∧ compute_vertices mW (some (List.zipWith (· + ·) [(1 : ℚ)] [(2 : ℚ)]))
          (some (List.zipWith (· + ·) ([] : List ℚ) ([] : List ℚ)))
        = Except.ok ((List.range mW.v_template.length).map fun i =>
            subVec3
              (addVec3 ((specVertices mW [(1 : ℚ)] []).getD i zeroVec3)
                ((specVertices mW [(2 : ℚ)] []).getD i zeroVec3))
              (mW.v_template.getD i zeroVec3)) :=
  ⟨rfl,
    (claim_C2 mW [(1 : ℚ)] [(2 : ℚ)] [] [] rfl (by decide) rfl (by decide)).1⟩

theorem claim_C5_witness :
    mW.num_shape < ([(1 : ℚ), (1 : ℚ)] : List ℚ).length
    ∧ compute_vertices mW (some [(1 : ℚ), (1 : ℚ)]) none
        = Except.error "shape_coeffs length exceeds num_shape"
    ∧ export_obj mW (some [(1 : ℚ), (1 : ℚ)]) none
        = Except.error "shape_coeffs length exceeds num_shape" :=
  ⟨by decide,
    ((claim_C5 mW).1 [(1 : ℚ), (1 : ℚ)] none (by decide)).1,
    ((claim_C5 mW).1 [(1 : ℚ), (1 : ℚ)] none (by decide)).2⟩

/-! CLI early checks. -/

/-- Claim C9 as corrected: the two utilities that take positional
arguments print a usage or diagnostic line and terminate with status 1
on insufficient arguments or a missing input file, before any other
output; the landmark exporter, which takes no arguments, prints a
diagnostic on a missing input file but terminates with exit status 0. -/
theorem claim_C9 :
    (∀ (argc : ℕ) (ex : Bool), argc < 2 ∨ ex = false →
      ∃ msgs, generate_flame_mesh_early argc ex = CliOutcome.exitWith 1 msgs)
    ∧ (∀ (argc : ℕ) (ex : Bool), argc < 3 ∨ ex = false →
      ∃ msgs, dump_mediapipe_embedding_early argc ex = CliOutcome.exitWith 1 msgs)
    ∧ export_flame_landmarks_early false
        = CliOutcome.exitWith 0
            ["[export] landmark_embedding.npy: <path>",
             "[export] ERROR: file not found"] := by
  refine ⟨?_, ?_, rfl⟩
  · rintro argc ex (h | h)
    · exact ⟨_, by unfold generate_flame_mesh_early; rw [if_pos h]⟩
    · subst h
      by_cases h2 : argc < 2
      · exact ⟨_, by unfold generate_flame_mesh_early; rw [if_pos h2]⟩
      · exact ⟨_, by unfold generate_flame_mesh_early; rw [if_neg h2]; rfl⟩
  · rintro argc ex (h | h)
    · exact ⟨_, by unfold dump_mediapipe_embedding_early; rw [if_pos h]⟩
    · subst h
      by_cases h2 : argc < 3
      · exact ⟨_, by unfold dump_mediapipe_embedding_early; rw [if_pos h2]⟩
      · exact ⟨_, by unfold dump_mediapipe_embedding_early; rw [if_neg h2]; rfl⟩

/-- Counterexample to claim C9 as stated: the landmark exporter, invoked
with its input file missing, terminates with exit status 0, not a
non-zero status. -/
theorem claim_C9_counterexample :
    export_flame_landmarks_early false
      = CliOutcome.exitWith 0
          ["[export] landmark_embedding.npy: <path>",
           "[export] ERROR: file not found"] := rfl

theorem claim_C9_witness :
    (∃ msgs, generate_flame_mesh_early 0 true = CliOutcome.exitWith 1 msgs)
    ∧ (∃ msgs, dump_mediapipe_embedding_early 2 true = CliOutcome.exitWith 1 msgs)
    ∧ (∃ msgs, generate_flame_mesh_early 5 false = CliOutcome.exitWith 1 msgs) :=
  ⟨claim_C9.1 0 true (Or.inl (by decide)),
   claim_C9.2.1 2 true (Or.inl (by decide)),
   claim_C9.1 5 false (Or.inr rfl)⟩

/-! The averaged-per-vertex UV variant: the accumulator equals sum and
count over the hits of each vertex. -/

theorem uvAccum_apply (pool : List Vec2) (refs : List (ℕ × ℕ)) (i : ℕ) :
    uvAccum pool refs i
      = (sumVec2 ((refs.filter fun r => r.1 = i).map fun r => pool.getD r.2 zeroVec2),
         (refs.filter fun r => r.1 = i).length) := by
  suffices h : ∀ acc : ℕ → Vec2 × ℕ,
      (refs.foldl
        (fun acc r => fun j =>
          if j = r.1 then (addVec2 (acc j).1 (pool.getD r.2 zeroVec2), (acc j).2 + 1)
          else acc j) acc) i
      = (addVec2 (acc i).1
          (sumVec2 ((refs.filter fun r => r.1 = i).map fun r => pool.getD r.2 zeroVec2)),
         (acc i).2 + (refs.filter fun r => r.1 = i).length) by
    unfold uvAccum
    rw [h (fun _ => (zeroVec2, 0))]
    refine Prod.ext ?_ ?_
    · refine Vec2.ext ?_ ?_ <;> simp [addVec2, zeroVec2]
    · simp
  intro acc
  induction refs generalizing acc with
  | nil =>
    refine Prod.ext ?_ ?_
    · refine Vec2.ext ?_ ?_ <;> simp [sumVec2, addVec2, zeroVec2]
    · simp
  | cons r rs ih =>
    simp only [List.foldl_cons]
    rw [ih]
    by_cases hr : r.1 = i
    · have hri : i = r.1 := hr.symm
      rw [List.filter_cons, if_pos (decide_eq_true hr), if_pos hri]
      simp only [List.map_cons, List.length_cons, Prod.mk.injEq]
      refine ⟨?_, ?_⟩
      · refine Vec2.ext ?_ ?_ <;> simp [sumVec2, addVec2] <;> ring
      · omega
    · have hri : ¬ i = r.1 := fun hh => hr hh.symm
      rw [List.filter_cons, if_neg hri,
        if_neg (by simpa using hr : ¬ decide (r.1 = i) = true)]

/-- Claim C4 (spec-modelled): for a reference mesh with matching vertex
count and nonempty UV pool, the averaged variant returns, for every
vertex, the arithmetic mean of all UV values attached to it across every
valid corner reference in every face line, gives exactly (0, 0) to a
vertex with no hits, and reports the number of such vertices as the
missing tally. -/
theorem claim_C4 (vCount : ℕ) (lines : List ObjLine)
    (hv : objVertexCount lines = vCount) (hp : (vtPool lines).length ≠ 0) :
    averaged_uv_from_template vCount lines
      = some ((List.range vCount).map fun i => meanUV vCount lines i,
          ((List.range vCount).filter fun i => vertexHits vCount lines i = []).length)
    ∧ ∀ i, vertexHits vCount lines i = [] → meanUV vCount lines i = zeroVec2 := by
  constructor
  · unfold averaged_uv_from_template
    rw [if_neg (by simp [hv]), if_neg hp]
    congr 1
    refine Prod.ext ?_ ?_
    · simp only []
      apply List.map_congr_left
      intro i hi
      simp only [uvAccumOf]
      rw [uvAccum_apply]
      unfold meanUV vertexHits
      rfl
    · simp only []
      congr 1
      apply List.filter_congr
      intro i hi
      rw [decide_eq_decide]
      simp only [uvAccumOf]
      rw [uvAccum_apply]
      simp [vertexHits, List.length_eq_zero]
  · intro i h
    unfold meanUV
    rw [h]
    simp

def linesA : List ObjLine :=
  [ObjLine.vLine 0 0 0, ObjLine.vLine 1 0 0,
   ObjLine.vtLine 1 0,
   ObjLine.fLine [⟨some 1, some 1⟩]]

theorem claim_C4_witness :
    objVertexCount linesA = 2
    ∧ (vtPool linesA).length ≠ 0
    ∧ averaged_uv_from_template 2 linesA
        = some ((List.range 2).map fun i => meanUV 2 linesA i,
            ((List.range 2).filter fun i => vertexHits 2 linesA i = []).length)
    ∧ vertexHits 2 linesA 1 = []
    ∧ ((List.range 2).filter fun i => vertexHits 2 linesA i = []).length = 1 :=
  ⟨by decide, by decide, (claim_C4 2 linesA (by decide) (by decide)).1,
    by decide, by decide⟩

end UFlame
